import Mathlib

/-!
Shallow embedding of the `a2` APNs client library (Rust) for verification.

Embedded source files:
- `src/client.rs`   — `Endpoint`, `Client`, `Client::send` response mapping,
  `Client::build_request` header/URL/body assembly.
- `src/error.rs`    — the `Error` enum.
- `src/request/payload.rs` — `Payload`, `APS`, `APSAlert`, `PlainAlert`,
  `InterruptionLevel`, `add_custom_data`, `to_json_string`.
- `src/request/notification/plain.rs` — `PlainNotificationBuilder`.

Parts of the repository referenced by the above but not among the given
sources (`src/response.rs`, `src/signer.rs`, `src/request/notification/mod.rs`)
are modelled from the spec where needed; each such definition is marked
`Modelled from the spec:` in its doc comment.

JSON values and their compact serialization stand in for `serde_json`.
`serde_json` (without the `preserve_order` feature, as here) keeps object
members in a `BTreeMap`, i.e. sorted by key; object field lists below are
therefore kept in sorted key order, matching the doctest outputs in the
sources (e.g. `{"body":...,"subtitle":...,"title":...}`).
-/

namespace A2

/-- JSON values, standing in for `serde_json::Value`. Numbers are naturals:
the sources only put `u8`/`u32`/`u64` values and strings into payloads. -/
inductive Json where
  | null
  | bool (b : Bool)
  | num (n : Nat)
  | str (s : String)
  | arr (elems : List Json)
  | obj (fields : List (String × Json))

/-- One hexadecimal digit, lower case, as `serde_json` prints in escapes. -/
def hexDigit (n : Nat) : Char :=
  if n < 10 then Char.ofNat (48 + n) else Char.ofNat (87 + n)

/-- `serde_json` escaping of one character inside a JSON string literal. -/
def escapeChar (c : Char) : String :=
  if c = '"' then "\\\""
  else if c = '\\' then "\\\\"
  else if c = '\x08' then "\\b"
  else if c = '\x09' then "\\t"
  else if c = '\x0a' then "\\n"
  else if c = '\x0c' then "\\f"
  else if c = '\x0d' then "\\r"
  else if c.toNat < 0x20 then
    "\\u00" ++ String.singleton (hexDigit (c.toNat / 16)) ++ String.singleton (hexDigit (c.toNat % 16))
  else String.singleton c

/-- A JSON string literal: quoted, characters escaped as `serde_json` does. -/
def serializeString (s : String) : String :=
  "\"" ++ String.join (s.toList.map escapeChar) ++ "\""

mutual

/-- Compact serialization of a JSON value, as `serde_json::to_string`. -/
def serializeJson : Json → String
  | .null => "null"
  | .bool true => "true"
  | .bool false => "false"
  | .num n => toString n
  | .str s => serializeString s
  | .arr xs => "[" ++ serializeArr xs ++ "]"
  | .obj fs => "\x7b" ++ serializeObj fs ++ "\x7d"

/-- Comma-separated serialization of array elements. -/
def serializeArr : List Json → String
  | [] => ""
  | [x] => serializeJson x
  | x :: xs => serializeJson x ++ "," ++ serializeArr xs

/-- Comma-separated serialization of object members. -/
def serializeObj : List (String × Json) → String
  | [] => ""
  | [(k, v)] => serializeString k ++ ":" ++ serializeJson v
  | (k, v) :: fs => serializeString k ++ ":" ++ serializeJson v ++ "," ++ serializeObj fs

end

/-- Insertion into a key-sorted association list, replacing an existing
binding: the behaviour of `BTreeMap::insert` from `std::collections`. -/
def insertSorted (k : String) (v : Json) : List (String × Json) → List (String × Json)
  | [] => [(k, v)]
  | (k', v') :: t =>
    if k < k' then (k, v) :: (k', v') :: t
    else if k = k' then (k, v) :: t
    else (k', v') :: insertSorted k v t

/-- The APNs service endpoint (`Endpoint` in `src/client.rs`). -/
inductive Endpoint where
  | Production
  | Sandbox

/-- The host chosen by `impl fmt::Display for Endpoint` in `src/client.rs`. -/
def endpointHost : Endpoint → String
  | .Production => "api.push.apple.com"
  | .Sandbox => "api.development.push.apple.com"

/-- Modelled from the spec: the notification priority enumeration lives in
`src/request/notification/mod.rs`, which is not among the given sources. -/
inductive Priority where
  | Normal
  | High

/-- Modelled from the spec: encode Normal→"5", High→"10"; the `Display`
implementation used by `apns_priority.to_string()` in `src/client.rs` is in
the missing `src/request/notification/mod.rs` (the tests in `src/client.rs`
assert exactly these strings). -/
def priorityToString : Priority → String
  | .Normal => "5"
  | .High => "10"

/-- Modelled from the spec: the collapse identifier type is in the missing
`src/request/notification/mod.rs`; `src/client.rs` reads its `value` field.
Its maximum-length constraint is enforced at construction and does not
affect request building. -/
structure CollapseId where
  value : String

/-- Modelled from the spec: the per-notification options struct is in the
missing `src/request/notification/mod.rs`; its fields are exactly those
read by `Client::build_request` in `src/client.rs` — priority, explicit
message id, expiration epoch (u64), collapse identifier, topic, all
independently optional. -/
structure NotificationOptions where
  apns_id : Option String := none
  apns_priority : Option Priority := none
  apns_expiration : Option Nat := none
  apns_collapse_id : Option CollapseId := none
  apns_topic : Option String := none

/-- `InterruptionLevel` from `src/request/payload.rs`. -/
inductive InterruptionLevel where
  | Passive
  | Active
  | TimeSensitive
  | Critical

/-- The manual `Serialize` impl for `InterruptionLevel` in
`src/request/payload.rs`: each variant serializes to a string. -/
def interruptionLevelString : InterruptionLevel → String
  | .Passive => "passive"
  | .Active => "active"
  | .TimeSensitive => "time-sensitive"
  | .Critical => "critical"

/-- `PlainAlert` from `src/request/payload.rs`: optional title and subtitle,
mandatory body. -/
structure PlainAlert where
  title : Option String := none
  subtitle : Option String := none
  body : String

/-- `PlainAlert::new` from `src/request/payload.rs`. -/
def PlainAlert.new (body : String) : PlainAlert :=
  { title := none, subtitle := none, body := body }

/-- `PlainAlert::set_title` from `src/request/payload.rs`. -/
def PlainAlert.set_title (a : PlainAlert) (title : String) : PlainAlert :=
  { a with title := some title }

/-- `PlainAlert.set_subtitle` from `src/request/payload.rs`. -/
def PlainAlert.set_subtitle (a : PlainAlert) (subtitle : String) : PlainAlert :=
  { a with subtitle := some subtitle }

/-- `APSAlert` from `src/request/payload.rs`. The localized and web-push
variants are out of the spec's scope (opaque payload shapes handed to the
protocol layer unchanged); they are modelled as carrying their serialized
JSON value directly. -/
inductive APSAlert where
  | Plain (a : PlainAlert)
  | Localized (v : Json)
  | WebPush (v : Json)

/-- `APS` from `src/request/payload.rs`: the pre-defined notification data;
every field optional, serialized in kebab-case with absent fields skipped. -/
structure APS where
  alert : Option APSAlert := none
  badge : Option Nat := none
  sound : Option String := none
  content_available : Option Nat := none
  category : Option String := none
  mutable_content : Option Nat := none
  url_args : Option (List String) := none
  interruption_level : Option InterruptionLevel := none

/-- Zero or one object members for an optional serde field marked
`skip_serializing_if = "Option::is_none"`. -/
def optField (name : String) (v : Option Json) : List (String × Json) :=
  match v with
  | some j => [(name, j)]
  | none => []

/-- Serialization of `PlainAlert` (serde derive, kebab-case field names,
optional fields skipped when absent). Members are listed in `serde_json`
map order, i.e. sorted by key: body, subtitle, title. -/
def plainAlertToJson (a : PlainAlert) : Json :=
  .obj ([("body", .str a.body)]
    ++ optField "subtitle" (a.subtitle.map .str)
    ++ optField "title" (a.title.map .str))

/-- Serialization of `APSAlert` (serde `untagged`): the active variant's
content is emitted with no discriminant tag. -/
def apsAlertToJson : APSAlert → Json
  | .Plain a => plainAlertToJson a
  | .Localized v => v
  | .WebPush v => v

/-- Serialization of `APS` (serde derive, `rename_all = "kebab-case"`,
absent optional fields skipped). Members in `serde_json` map order, i.e.
sorted by key: alert, badge, category, content-available,
interruption-level, mutable-content, sound, url-args. -/
def apsToJson (a : APS) : Json :=
  .obj (optField "alert" (a.alert.map apsAlertToJson)
    ++ optField "badge" (a.badge.map .num)
    ++ optField "category" (a.category.map .str)
    ++ optField "content-available" (a.content_available.map .num)
    ++ optField "interruption-level" (a.interruption_level.map (fun il => .str (interruptionLevelString il)))
    ++ optField "mutable-content" (a.mutable_content.map .num)
    ++ optField "sound" (a.sound.map .str)
    ++ optField "url-args" (a.url_args.map (fun l => .arr (l.map .str))))

/-- `Payload` from `src/request/payload.rs`: options, device token, the
`aps` structure and the custom top-level data (`BTreeMap`, modelled as a
key-sorted association list). -/
structure Payload where
  options : NotificationOptions
  device_token : String
  aps : APS
  data : List (String × Json)

/-- Modelled from the spec: the structured remote error body
`{reason, optional timestamp}`; its type lives in the missing
`src/response.rs`. -/
structure ErrorBody where
  reason : String
  timestamp : Option Nat := none

/-- `Response` as constructed by `Client::send` in `src/client.rs`:
optional passthrough `apns-id`, optional structured remote error, numeric
status code (`u16`). The type itself lives in the missing
`src/response.rs`; its three fields are exactly those written in
`src/client.rs`. -/
structure Response where
  apns_id : Option String
  error : Option ErrorBody
  code : Nat

/-- The `Error` enum from `src/error.rs`. Payloads of the non-`Response`
variants are opaque messages here (their Rust types wrap foreign errors). -/
inductive ClientError where
  | SerializeError (msg : String)
  | ConnectionError (msg : String)
  | SignerError (msg : String)
  | ResponseError (r : Response)
  | InvalidOptions (s : String)
  | ReadError (msg : String)

/-- `Payload::add_custom_data` from `src/request/payload.rs`. The argument
arrives as the outcome of `serde_json::to_value(data)`: a JSON value, or a
serialization error which the `?` converts into `Error::SerializeError`.
On success the value is inserted into the `BTreeMap` under `root_key`. -/
def Payload.add_custom_data (p : Payload) (root_key : String) (data : Except String Json) :
    Except ClientError Payload :=
  match data with
  | .error e => .error (.SerializeError e)
  | .ok v => .ok { p with data := insertSorted root_key v p.data }

/-- The final JSON object of `Payload::to_json_string`: the custom data map
with the serialized `aps` value inserted under the key `"aps"`
(`self.data.insert("aps", aps_data)` — `BTreeMap::insert` replaces any
existing binding). -/
def finalData (p : Payload) : List (String × Json) :=
  insertSorted "aps" (apsToJson p.aps) p.data

/-- `Payload::to_json_string` from `src/request/payload.rs`: serialize the
`aps` structure to a value, insert it into the custom-data map under
`"aps"`, and serialize the map. The Rust signature is fallible because
`serde_json` is; on the value domain actually serialized here
(strings, naturals, JSON values) `serde_json::to_value`/`to_string` cannot
fail, so the embedding always returns `ok`. -/
def Payload.to_json_string (p : Payload) : Except ClientError String :=
  .ok (serializeJson (.obj (finalData p)))

/-- Modelled from the spec: `src/signer.rs` is not among the given sources.
A `Client` in token mode holds a `Signer`; at request-building time
`src/client.rs` calls `signer.with_signature(|signature| ...)`, which
either yields the current signature string or a signing error. The client
is therefore modelled by its endpoint together with that outcome:
`none` = certificate mode (no signer); `some (ok sig)` = token mode, the
signer produced signature `sig`; `some (error e)` = token mode, signing
failed. The `http_client` field carries no request content and is
omitted. -/
structure Client where
  endpoint : Endpoint
  signerSig : Option (Except String String)

/-- An assembled wire request: method, URL, ordered header list, body.
Header names are the lower-case names used in `src/client.rs`
(`CONTENT_TYPE` = content-type, `AUTHORIZATION` = authorization,
`CONTENT_LENGTH` = content-length). -/
structure Request where
  method : String
  url : String
  headers : List (String × String)
  body : String

/-- Zero or one headers for an optional `NotificationOptions` field:
`build_request` sets each header only under `if let Some(...)`. -/
def optHeader (name : String) (v : Option String) : List (String × String) :=
  match v with
  | some s => [(name, s)]
  | none => []

/-- The request assembled by `Client::build_request` in `src/client.rs`
once the authorization value (if any) and the serialized body are at hand:
POST to `https://<host>/3/device/<device_token>`; `Content-Type` always;
each optional header present iff the option is set (priority via
`to_string()`, expiration via `to_string()` of the integer, collapse id
via its `value`, id and topic literally); then the optional
`Authorization`; then `Content-Length` = `payload_json.len()`, the byte
length of the serialized body, which becomes the body. -/
def buildRequestCore (e : Endpoint) (auth : Option String) (payloadJson : String)
    (p : Payload) : Request :=
  { method := "POST"
    url := "https://" ++ endpointHost e ++ "/3/device/" ++ p.device_token
    headers := [("content-type", "application/json")]
      ++ optHeader "apns-priority" (p.options.apns_priority.map priorityToString)
      ++ optHeader "apns-id" p.options.apns_id
      ++ optHeader "apns-expiration" (p.options.apns_expiration.map toString)
      ++ optHeader "apns-collapse-id" (p.options.apns_collapse_id.map CollapseId.value)
      ++ optHeader "apns-topic" p.options.apns_topic
      ++ optHeader "authorization" auth
      ++ [("content-length", toString payloadJson.utf8ByteSize)]
    body := payloadJson }

/-- Outcome of `Client::build_request`: either an assembled request, or a
panic — `src/client.rs` calls `.unwrap()` on the signer outcome (line 154)
and on `payload.to_json_string()` (line 159), so a signing or
serialization failure aborts the process instead of producing a value. -/
inductive BuildOutcome where
  | built (r : Request)
  | panicked

/-- `Client::build_request` from `src/client.rs`. The signer unwrap happens
before the serialization unwrap, as in the source. -/
def Client.build_request (c : Client) (p : Payload) : BuildOutcome :=
  match c.signerSig with
  | some (.error _) => .panicked
  | some (.ok sig) =>
    match p.to_json_string with
    | .error _ => .panicked
    | .ok s => .built (buildRequestCore c.endpoint (some ("Bearer " ++ sig)) s p)
  | none =>
    match p.to_json_string with
    | .error _ => .panicked
    | .ok s => .built (buildRequestCore c.endpoint none s p)

/-- The response mapping of `Client::send` in `src/client.rs`, applied to a
received wire reply. The reply is given by its status code, its optional
`apns-id` header (read before the status is inspected), and its body.
`parse` stands for `serde_json::from_slice::<ErrorBody>` on the body: the
structured error when the body parses, `none` otherwise (`.ok()` discards
the parse error). Status 200 (`StatusCode::OK`) yields `Ok`; any other
status yields `Err(ResponseError(..))` with the status preserved. -/
def sendResult (parse : String → Option ErrorBody) (status : Nat)
    (apnsId : Option String) (body : String) : Except ClientError Response :=
  if status = 200 then
    .ok { apns_id := apnsId, error := none, code := status }
  else
    .error (.ResponseError { apns_id := apnsId, error := parse body, code := status })

/-- `PlainNotificationBuilder` from `src/request/notification/plain.rs`. -/
structure PlainNotificationBuilder where
  alert : PlainAlert
  badge : Option Nat
  sound : Option String
  category : Option String
  interruption_level : Option InterruptionLevel

/-- `PlainNotificationBuilder::new` from `src/request/notification/plain.rs`. -/
def PlainNotificationBuilder.new (body : PlainAlert) : PlainNotificationBuilder :=
  { alert := body, badge := none, sound := none, category := none, interruption_level := none }

/-- `PlainNotificationBuilder::set_badge`. -/
def PlainNotificationBuilder.set_badge (b : PlainNotificationBuilder) (badge : Nat) :
    PlainNotificationBuilder :=
  { b with badge := some badge }

/-- `PlainNotificationBuilder::set_sound`. -/
def PlainNotificationBuilder.set_sound (b : PlainNotificationBuilder) (sound : String) :
    PlainNotificationBuilder :=
  { b with sound := some sound }

/-- `PlainNotificationBuilder::set_category`. -/
def PlainNotificationBuilder.set_category (b : PlainNotificationBuilder) (category : String) :
    PlainNotificationBuilder :=
  { b with category := some category }

/-- `PlainNotificationBuilder::set_interruption_level`. -/
def PlainNotificationBuilder.set_interruption_level (b : PlainNotificationBuilder)
    (il : InterruptionLevel) : PlainNotificationBuilder :=
  { b with interruption_level := some il }

/-- `PlainNotificationBuilder::build` (the `NotificationBuilder` impl) from
`src/request/notification/plain.rs`. -/
def PlainNotificationBuilder.build (b : PlainNotificationBuilder) (device_token : String)
    (options : NotificationOptions) : Payload :=
  { aps :=
      { alert := some (.Plain b.alert)
        badge := b.badge
        sound := b.sound
        content_available := none
        category := b.category
        mutable_content := none
        url_args := none
        interruption_level := b.interruption_level }
    device_token := device_token
    options := options
    data := [] }

/-- The alert used by the tests in `src/client.rs`: `PlainAlert::new("test")`. -/
def alertEx : PlainAlert := PlainAlert.new "test"

/-- The payload of the tests in `src/client.rs`: built with default options. -/
def payloadEx : Payload := (PlainNotificationBuilder.new alertEx).build "a_test_id" {}

/-- `payloadEx` after `add_custom_data("aps", "x")`. -/
def payloadExAps : Payload := { payloadEx with data := [("aps", Json.str "x")] }

/-- Options with every optional field set (values as in the `src/client.rs`
tests). -/
def optionsFull : NotificationOptions :=
  { apns_id := some "a-test-apns-id"
    apns_priority := some .High
    apns_expiration := some 420
    apns_collapse_id := some ⟨"a_collapse_id"⟩
    apns_topic := some "a_topic" }

/-- A payload carrying `optionsFull`. -/
def payloadFull : Payload := (PlainNotificationBuilder.new alertEx).build "a_test_id" optionsFull

/-- A certificate-mode client (no signer) on Production. -/
def clientCert : Client := { endpoint := .Production, signerSig := none }

/-- A token-mode client whose signer currently yields signature `sig123`. -/
def clientToken : Client := { endpoint := .Production, signerSig := some (.ok "sig123") }

/-- A token-mode client whose signer fails to sign. -/
def clientSignFail : Client := { endpoint := .Production, signerSig := some (.error "bad key") }

/-- A second failing token-mode client, on Sandbox. -/
def clientSignFail2 : Client := { endpoint := .Sandbox, signerSig := some (.error "no key") }

/-- The request `clientCert` builds for `payloadEx`. -/
def requestCert : Request :=
  buildRequestCore .Production none (serializeJson (.obj (finalData payloadEx))) payloadEx

/-- The request `clientToken` builds for `payloadEx`. -/
def requestToken : Request :=
  buildRequestCore .Production (some ("Bearer " ++ "sig123"))
    (serializeJson (.obj (finalData payloadEx))) payloadEx

/-- The request `clientCert` builds for `payloadFull`. -/
def requestFull : Request :=
  buildRequestCore .Production none (serializeJson (.obj (finalData payloadFull))) payloadFull

theorem lookup_append {β : Type} (k : String) (xs ys : List (String × β)) :
    (xs ++ ys).lookup k = ((xs.lookup k).or (ys.lookup k)) := by
  induction xs with
  | nil => simp [List.lookup]
  | cons hd t ih =>
    obtain ⟨k', v'⟩ := hd
    by_cases hk : k = k'
    · simp [List.lookup, hk]
    · simp [List.lookup, beq_eq_false_iff_ne.mpr hk, ih]

theorem lookup_optHeader_self (n : String) (v : Option String) :
    (optHeader n v).lookup n = v := by
  cases v <;> simp [optHeader, List.lookup]

theorem lookup_optHeader_ne {k n : String} (h : k ≠ n) (v : Option String) :
    (optHeader n v).lookup k = none := by
  cases v <;> simp [optHeader, List.lookup, beq_eq_false_iff_ne.mpr h]

theorem lookup_insertSorted_self (k : String) (v : Json) (l : List (String × Json)) :
    (insertSorted k v l).lookup k = some v := by
  induction l with
  | nil => simp [insertSorted, List.lookup]
  | cons hd t ih =>
    obtain ⟨k', v'⟩ := hd
    by_cases h1 : k < k'
    · simp [insertSorted, h1, List.lookup]
    · by_cases h2 : k = k'
      · simp [insertSorted, h1, h2, List.lookup]
      · simp [insertSorted, h1, h2, List.lookup, beq_eq_false_iff_ne.mpr h2, ih]

theorem insertSorted_insertSorted (k : String) (v w : Json) (l : List (String × Json)) :
    insertSorted k v (insertSorted k w l) = insertSorted k v l := by
  induction l with
  | nil => simp [insertSorted, lt_irrefl]
  | cons hd t ih =>
    obtain ⟨k', v'⟩ := hd
    by_cases h1 : k < k'
    · simp [insertSorted, h1, lt_irrefl]
    · by_cases h2 : k = k'
      · simp [insertSorted, h1, h2, lt_irrefl]
      · simp [insertSorted, h1, h2, ih]

/-- A request built without panic is `buildRequestCore` at the client's
endpoint, some authorization value, and the serialized payload. -/
theorem build_request_eq_core (c : Client) (p : Payload) (r : Request)
    (h : c.build_request p = .built r) :
    ∃ auth, r = buildRequestCore c.endpoint auth (serializeJson (.obj (finalData p))) p := by
  obtain ⟨e, s⟩ := c
  match s with
  | none =>
    refine ⟨none, ?_⟩
    simp only [Client.build_request, Payload.to_json_string] at h
    exact (BuildOutcome.built.injEq _ _ ▸ h).symm
  | some (.ok sig) =>
    refine ⟨some ("Bearer " ++ sig), ?_⟩
    simp only [Client.build_request, Payload.to_json_string] at h
    exact (BuildOutcome.built.injEq _ _ ▸ h).symm
  | some (.error e') =>
    simp only [Client.build_request] at h
    exact absurd h (by simp)

/-- C1: for every wire reply whose status code is not 200, `Client::send`
returns a failure outcome (never a success); the numeric status code is
preserved verbatim in the returned `Response`, the body is parsed as a
structured error object when possible, and an unparseable or empty body
(where `parse` yields `none`) still gives a failure whose `error` field is
`none`, so no reason is reported. -/
theorem send_non200_always_failure (parse : String → Option ErrorBody) (status : Nat)
    (apnsId : Option String) (body : String) (h : status ≠ 200) :
    sendResult parse status apnsId body =
      Except.error (.ResponseError { apns_id := apnsId, error := parse body, code := status })
    ∧ ∀ r : Response, sendResult parse status apnsId body ≠ Except.ok r := by
  refine ⟨by simp [sendResult, h], fun r => by simp [sendResult, h]⟩

theorem send_non200_always_failure_witness :
    sendResult (fun _ => none) 500 none "" =
      Except.error (.ResponseError { apns_id := none, error := none, code := 500 })
    ∧ ∀ r : Response, sendResult (fun _ => none) 500 none "" ≠ Except.ok r :=
  send_non200_always_failure (fun _ => none) 500 none "" (by decide)

/-- C2: for every wire reply with status 200, `Client::send` returns a
success outcome whose message id equals the reply's `apns-id` header
(absent when the header is absent), whose error field is empty and whose
code is 200; and since the `apns-id` header is read before the status is
inspected, every failure outcome carries it too. -/
theorem send_200_success (parse : String → Option ErrorBody) (status : Nat)
    (apnsId : Option String) (body : String) :
    (status = 200 → sendResult parse status apnsId body =
      Except.ok { apns_id := apnsId, error := none, code := 200 })
    ∧ (∀ r : Response, sendResult parse status apnsId body =
        Except.error (.ResponseError r) → r.apns_id = apnsId) := by
  constructor
  · intro h
    subst h
    simp [sendResult]
  · intro r hr
    by_cases h : status = 200
    · simp [sendResult, h] at hr
    · simp [sendResult, h] at hr
      obtain ⟨a, e', co⟩ := r
      simp_all

theorem send_200_success_witness :
    sendResult (fun _ => none) 200 (some "abc") "" =
      Except.ok { apns_id := some "abc", error := none, code := 200 } :=
  (send_200_success (fun _ => none) 200 (some "abc") "").1 rfl

/-- C7, amended: a token-signing failure during `Client::build_request`
causes a panic (the `.unwrap()` at `src/client.rs` line 154) before any
network I/O; it is not returned to the caller as an error value. A
payload-serialization failure would likewise be unwrapped into a panic
(line 159), though on the payload domain serialization always succeeds. -/
theorem signing_failure_panics (c : Client) (p : Payload) (e : String)
    (h : c.signerSig = some (Except.error e)) :
    c.build_request p = .panicked := by
  unfold Client.build_request
  rw [h]

theorem signing_failure_panics_witness :
    clientSignFail2.build_request payloadEx = .panicked :=
  signing_failure_panics clientSignFail2 payloadEx "no key" rfl

/-- C7 counterexample: with a signer whose signature computation fails, the
build step of a send call panics — it does not produce a request, and the
claimed signing-failure error value is never returned. -/
theorem signing_failure_panics_cex :
    clientSignFail.build_request payloadEx = .panicked
    ∧ ∀ r : Request, clientSignFail.build_request payloadEx ≠ BuildOutcome.built r :=
  ⟨rfl, fun _ h => BuildOutcome.noConfusion h⟩

/-- C8: building a request twice from the same payload value and the same
Signer state yields identical requests — the built request depends on
nothing but the endpoint, the signer state and the payload. -/
theorem build_request_deterministic (c₁ c₂ : Client) (p : Payload)
    (he : c₁.endpoint = c₂.endpoint) (hs : c₁.signerSig = c₂.signerSig) :
    c₁.build_request p = c₂.build_request p := by
  obtain ⟨e₁, s₁⟩ := c₁
  obtain ⟨e₂, s₂⟩ := c₂
  simp only at he hs
  subst he
  subst hs
  rfl

theorem build_request_deterministic_witness :
    clientCert.build_request payloadEx = clientCert.build_request payloadEx :=
  build_request_deterministic clientCert clientCert payloadEx rfl rfl

/-- C9: `Payload::to_json_string` produces a single JSON object that always
contains the key "aps" mapping to the serialized APS structure; custom
data previously added under the root key "aps" is silently replaced by the
APS data in the final body. -/
theorem to_json_string_always_aps (p : Payload) :
    p.to_json_string = Except.ok (serializeJson (.obj (finalData p)))
    ∧ (finalData p).lookup "aps" = some (apsToJson p.aps)
    ∧ ∀ (v : Json) (p' : Payload), p.add_custom_data "aps" (.ok v) = .ok p' →
        p'.to_json_string = p.to_json_string := by
  refine ⟨rfl, lookup_insertSorted_self _ _ _, ?_⟩
  intro v p' h
  simp only [Payload.add_custom_data, Except.ok.injEq] at h
  subst h
  simp [Payload.to_json_string, finalData, insertSorted_insertSorted]

theorem to_json_string_always_aps_witness :
    payloadExAps.to_json_string = payloadEx.to_json_string :=
  (to_json_string_always_aps payloadEx).2.2 (.str "x") payloadExAps rfl

/-- C10: `PlainNotificationBuilder::build` returns a payload whose
`aps.alert` is the given plain alert (always present), whose
`content_available`, `mutable_content` and `url_args` are unset, whose
device token and options equal the arguments unchanged, and whose
custom-data map is empty; `new` starts with every optional setting unset. -/
theorem plain_builder_build (b : PlainNotificationBuilder) (a : PlainAlert)
    (token : String) (opts : NotificationOptions) :
    (b.build token opts).aps.alert = some (.Plain b.alert)
    ∧ (b.build token opts).aps.badge = b.badge
    ∧ (b.build token opts).aps.sound = b.sound
    ∧ (b.build token opts).aps.category = b.category
    ∧ (b.build token opts).aps.interruption_level = b.interruption_level
    ∧ (b.build token opts).aps.content_available = none
    ∧ (b.build token opts).aps.mutable_content = none
    ∧ (b.build token opts).aps.url_args = none
    ∧ (b.build token opts).device_token = token
    ∧ (b.build token opts).options = opts
    ∧ (b.build token opts).data = []
    ∧ PlainNotificationBuilder.new a =
        { alert := a, badge := none, sound := none, category := none,
          interruption_level := none } :=
  ⟨rfl, rfl, rfl, rfl, rfl, rfl, rfl, rfl, rfl, rfl, rfl, rfl⟩

/-- C3: in every built request, each of the optional headers apns-priority,
apns-id, apns-expiration, apns-collapse-id and apns-topic is present iff
the corresponding option is set, with the exact textual encodings:
priority Normal→"5" and High→"10", expiration→decimal string of the
epoch-seconds integer (so 0 encodes as "0", distinct from unset), and
collapse-id/topic/id→the literal caller-supplied string. -/
theorem build_request_optional_headers (c : Client) (p : Payload) (r : Request)
    (h : c.build_request p = .built r) :
    r.headers.lookup "apns-priority" = p.options.apns_priority.map priorityToString
    ∧ r.headers.lookup "apns-id" = p.options.apns_id
    ∧ r.headers.lookup "apns-expiration" = p.options.apns_expiration.map toString
    ∧ r.headers.lookup "apns-collapse-id" = p.options.apns_collapse_id.map CollapseId.value
    ∧ r.headers.lookup "apns-topic" = p.options.apns_topic
    ∧ priorityToString .Normal = "5" ∧ priorityToString .High = "10" := by
  obtain ⟨auth, rfl⟩ := build_request_eq_core c p r h
  refine ⟨?_, ?_, ?_, ?_, ?_, rfl, rfl⟩ <;>
    simp [buildRequestCore, lookup_append, lookup_optHeader_self, lookup_optHeader_ne,
      List.lookup]

theorem build_request_optional_headers_witness :
    requestFull.headers.lookup "apns-priority" = some "10"
    ∧ requestFull.headers.lookup "apns-id" = some "a-test-apns-id"
    ∧ requestFull.headers.lookup "apns-expiration" = some "420"
    ∧ requestFull.headers.lookup "apns-collapse-id" = some "a_collapse_id"
    ∧ requestFull.headers.lookup "apns-topic" = some "a_topic"
    ∧ priorityToString .Normal = "5" ∧ priorityToString .High = "10" :=
  build_request_optional_headers clientCert payloadFull requestFull rfl

/-- C4: the Authorization header is entirely absent when the Client was
constructed in certificate mode (no Signer) and is always present and
prefixed "Bearer " when the Client was constructed in token mode; the two
modes are mutually exclusive per Client instance (one `signerSig` field). -/
theorem build_request_authorization (c : Client) (p : Payload) (r : Request) :
    (c.signerSig = none → c.build_request p = .built r →
      r.headers.lookup "authorization" = none)
    ∧ (∀ sig, c.signerSig = some (.ok sig) → c.build_request p = .built r →
      r.headers.lookup "authorization" = some ("Bearer " ++ sig)) := by
  obtain ⟨ep, s⟩ := c
  constructor
  · intro hs h
    simp only at hs
    subst hs
    simp only [Client.build_request, Payload.to_json_string] at h
    injection h with h
    subst h
    simp [buildRequestCore, lookup_append, lookup_optHeader_self, lookup_optHeader_ne,
      List.lookup]
  · intro sig hs h
    simp only at hs
    subst hs
    simp only [Client.build_request, Payload.to_json_string] at h
    injection h with h
    subst h
    simp [buildRequestCore, lookup_append, lookup_optHeader_self, lookup_optHeader_ne,
      List.lookup]

theorem build_request_authorization_witness :
    requestCert.headers.lookup "authorization" = none
    ∧ requestToken.headers.lookup "authorization" = some "Bearer sig123" :=
  ⟨(build_request_authorization clientCert payloadEx requestCert).1 rfl rfl,
   (build_request_authorization clientToken payloadEx requestToken).2 "sig123" rfl rfl⟩

/-- C5: for every payload whose serialization succeeds, the Content-Length
header of the built request equals the exact byte length of that same
request's serialized JSON body (computed from the serialized string). -/
theorem build_request_content_length (c : Client) (p : Payload) (r : Request)
    (h : c.build_request p = .built r) :
    r.headers.lookup "content-length" = some (toString r.body.utf8ByteSize)
    ∧ r.body = serializeJson (.obj (finalData p)) := by
  obtain ⟨auth, rfl⟩ := build_request_eq_core c p r h
  refine ⟨?_, rfl⟩
  simp [buildRequestCore, lookup_append, lookup_optHeader_ne, List.lookup]

theorem build_request_content_length_witness :
    requestCert.headers.lookup "content-length" =
      some (toString requestCert.body.utf8ByteSize)
    ∧ requestCert.body = serializeJson (.obj (finalData payloadEx)) :=
  build_request_content_length clientCert payloadEx requestCert rfl

/-- C6: for every Endpoint variant and every non-empty device token, the
built request has method POST and URL exactly
`https://` + host + `/3/device/` + device_token, with Production mapping
to api.push.apple.com and Sandbox to api.development.push.apple.com. -/
theorem build_request_url_method (c : Client) (p : Payload) (r : Request)
    (hne : p.device_token ≠ "") (h : c.build_request p = .built r) :
    r.method = "POST"
    ∧ r.url = "https://" ++ endpointHost c.endpoint ++ "/3/device/" ++ p.device_token
    ∧ endpointHost .Production = "api.push.apple.com"
    ∧ endpointHost .Sandbox = "api.development.push.apple.com" := by
  obtain ⟨auth, rfl⟩ := build_request_eq_core c p r h
  exact ⟨rfl, rfl, rfl, rfl⟩

theorem build_request_url_method_witness :
    requestCert.method = "POST"
    ∧ requestCert.url = "https://api.push.apple.com/3/device/a_test_id"
    ∧ endpointHost .Production = "api.push.apple.com"
    ∧ endpointHost .Sandbox = "api.development.push.apple.com" :=
  build_request_url_method clientCert payloadEx requestCert (by decide) rfl

end A2
